import Mathlib

/-!
Verification development for the game-server backend
(`src/routes/server_routes.py`, `src/services/b2_storage_service.py`,
`src/services/kubernetes_service.py`, `src/utils/validators.py`,
`src/config/logging_config.py`).

The Python sources are shallowly embedded: file contents are byte lists,
the B2 bucket is an association list from full object key to stored bytes
(in insertion order; `bucket.ls` enumeration is modelled as that order),
cluster state and in-pod command results are an explicit environment
record, and each Flask route body is a pure function from the environment,
the store and the parsed request to a result, the updated store and a
trace of the operations it performed.
-/

namespace GameServer

/-- A byte string: list of byte values `0..255`. -/
abbrev Bytes := List Nat

/-- Python `str.startswith`: code-point sequences compared. -/
def pyStartswith (s pre : String) : Bool :=
  List.isPrefixOf pre.data s.data

/-- Python `str.endswith`. -/
def pyEndswith (s suf : String) : Bool :=
  List.isSuffixOf suf.data s.data

/-- Python `len` on `str` (number of code points). -/
def pyLen (s : String) : Nat := s.data.length

/-- Python slicing `s[n:]` on `str` (drop `n` code points). -/
def pyDropChars (s : String) (n : Nat) : String := ⟨s.data.drop n⟩

/-- Python f-string rendering of a value that may be `None`
(e.g. `f"app={server_id}"` when `server_id` is `None` renders `"app=None"`). -/
def pyStr : Option String → String
  | none => "None"
  | some s => s

/-- UTF-8 encoding of one code point (the encoding `str.encode('utf-8')`
performs per character). -/
def utf8EncodeChar (c : Nat) : Bytes :=
  if c < 0x80 then [c]
  else if c < 0x800 then [0xC0 + c / 64, 0x80 + c % 64]
  else if c < 0x10000 then
    [0xE0 + c / 4096, 0x80 + c / 64 % 64, 0x80 + c % 64]
  else
    [0xF0 + c / 262144, 0x80 + c / 4096 % 64, 0x80 + c / 64 % 64, 0x80 + c % 64]

/-- Python `str.encode('utf-8')`. -/
def utf8Encode (s : String) : Bytes :=
  s.data.flatMap (fun c => utf8EncodeChar c.toNat)

/-- Is `b` a UTF-8 continuation byte (`0x80..0xBF`)? -/
def isContByte (b : Nat) : Bool := 0x80 ≤ b ∧ b < 0xC0

/-- Fuel-driven UTF-8 decoder loop.  Mirrors what Python's text-mode
`open(path, 'r').read()` does to the stored bytes: decode as UTF-8,
failing (raising `UnicodeDecodeError`) on malformed input, overlong
encodings, surrogates and out-of-range code points. -/
def utf8DecodeAux : Nat → Bytes → Option (List Char)
  | _, [] => some []
  | 0, _ :: _ => none
  | fuel + 1, b :: rest =>
    if b < 0x80 then
      (utf8DecodeAux fuel rest).map (fun cs => Char.ofNat b :: cs)
    else if b < 0xC0 then none
    else if b < 0xE0 then
      match rest with
      | b1 :: rest1 =>
        if isContByte b1 then
          let c := (b - 0xC0) * 64 + (b1 - 0x80)
          if c < 0x80 then none
          else (utf8DecodeAux fuel rest1).map (fun cs => Char.ofNat c :: cs)
        else none
      | [] => none
    else if b < 0xF0 then
      match rest with
      | b1 :: b2 :: rest2 =>
        if isContByte b1 ∧ isContByte b2 then
          let c := (b - 0xE0) * 4096 + (b1 - 0x80) * 64 + (b2 - 0x80)
          if c < 0x800 ∨ (0xD800 ≤ c ∧ c ≤ 0xDFFF) then none
          else (utf8DecodeAux fuel rest2).map (fun cs => Char.ofNat c :: cs)
        else none
      | _ => none
    else if b < 0xF8 then
      match rest with
      | b1 :: b2 :: b3 :: rest3 =>
        if isContByte b1 ∧ isContByte b2 ∧ isContByte b3 then
          let c := (b - 0xF0) * 262144 + (b1 - 0x80) * 4096 +
            (b2 - 0x80) * 64 + (b3 - 0x80)
          if c < 0x10000 ∨ 0x110000 ≤ c then none
          else (utf8DecodeAux fuel rest3).map (fun cs => Char.ofNat c :: cs)
        else none
      | _ => none
    else none

/-- UTF-8 decoding of a byte string, `none` on invalid input. -/
def utf8Decode (bs : Bytes) : Option String :=
  (utf8DecodeAux bs.length bs).map (fun cs => ⟨cs⟩)

/-- A file payload handed to `B2StorageService.update_file`: the
`is_binary` flag of the source together with the matching payload type
(`str` for `is_binary=False`, `bytes` for `is_binary=True`). -/
inductive Content
  | text (s : String)
  | binary (b : Bytes)
deriving DecidableEq, Repr

/-- The B2 bucket contents: full object key (`"{server_id}/{path}"`) to
stored bytes, in insertion order.  `bucket.ls` enumeration is modelled
as this order. -/
abbrev Store := List (String × Bytes)

/-- Look an object up by its full key. -/
def storeGet (st : Store) (key : String) : Option Bytes :=
  (st.find? (fun kv => kv.1 = key)).map (fun kv => kv.2)

/-- Create or overwrite an object (`bucket.upload_local_file`): overwrite
in place if the key exists, otherwise append. -/
def storePut (st : Store) (key : String) (v : Bytes) : Store :=
  if st.any (fun kv => kv.1 = key) then
    st.map (fun kv => if kv.1 = key then (key, v) else kv)
  else
    st ++ [(key, v)]

namespace B2StorageService

/-- The bytes `update_file` uploads: `content.encode('utf-8')` when
`is_binary` is false, the raw bytes when it is true
(src/services/b2_storage_service.py lines 92-98). -/
def contentBytes : Content → Bytes
  | .text s => utf8Encode s
  | .binary b => b

/-- `B2StorageService.update_file(server_id, file_path, content, is_binary)`
(src/services/b2_storage_service.py lines 87-135): uploads the encoded
content under the key `f"{server_id}/{file_path}"`. -/
def update_file (st : Store) (server_id file_path : String) (content : Content) :
    Store :=
  storePut st (server_id ++ "/" ++ file_path) (contentBytes content)

/-- `B2StorageService.list_files(server_id)`
(src/services/b2_storage_service.py lines 19-39): enumerates the keys
under the `f"{server_id}/"` storage prefix, strips that prefix once and
skips entries whose relative path is empty.  The source's fallback branch
(appending the full name when the prefix is unexpectedly absent) is kept,
though `bucket.ls(prefix)` only yields keys with the prefix. -/
def list_files (st : Store) (server_id : String) : List String :=
  let pre := server_id ++ "/"
  (st.filter (fun kv => pyStartswith kv.1 pre)).filterMap (fun kv =>
    if pyStartswith kv.1 pre then
      let relative_path := pyDropChars kv.1 (pyLen pre)
      if relative_path = "" then none else some relative_path
    else
      some kv.1)

/-- `B2StorageService.get_file(server_id, file_path)`
(src/services/b2_storage_service.py lines 41-85).  Note the source
declares no `is_binary` parameter.  The key is `file_path` itself when it
already starts with `f"{server_id}/"`, else `f"{server_id}/{file_path}"`;
the downloaded object is read back in text mode (`open(..., 'r')`), i.e.
decoded as UTF-8; `none` models the raised exception (missing object or
`UnicodeDecodeError`).  Text-mode universal-newline translation is not
modelled. -/
def get_file (st : Store) (server_id file_path : String) : Option String :=
  let pre := server_id ++ "/"
  let full_path := if pyStartswith file_path pre then file_path
    else server_id ++ "/" ++ file_path
  (storeGet st full_path).bind utf8Decode

end B2StorageService

/-! ### Validators (src/utils/validators.py) -/

/-- One character of the class `[a-z0-9-]`. -/
def isIdChar (c : Char) : Bool :=
  (97 ≤ c.toNat ∧ c.toNat ≤ 122) ∨ (48 ≤ c.toNat ∧ c.toNat ≤ 57) ∨ c = '-'

/-- Python `re.match(r'^[a-z0-9\-]+$', value)` as a Boolean: one or more
characters of the class; `$` also matches just before one trailing
newline, so a single trailing `'\n'` is tolerated. -/
def matchesIdPattern (s : String) : Bool :=
  let core := if pyEndswith s "\n" then ⟨s.data.dropLast⟩ else s
  core ≠ "" ∧ core.data.all isIdChar

/-- `ServerIdValidator.__call__` (src/utils/validators.py lines 8-20):
pattern match, length at most 50, no leading or trailing hyphen.
`true` means the validator returns, `false` that it raises
`ValidationError`. -/
def serverIdValid (s : String) : Bool :=
  matchesIdPattern s ∧ pyLen s ≤ 50 ∧
    ¬ pyStartswith s "-" ∧ ¬ pyEndswith s "-"

/-- `NamespaceValidator.__call__` (src/utils/validators.py lines 22-32). -/
def namespaceValid (s : String) : Bool :=
  matchesIdPattern s ∧ pyLen s ≤ 63

/-! ### Display status derivation (src/routes/server_routes.py) -/

inductive DisplayStatus
  | running
  | paused
  | starting
  | degraded
  | unknown
deriving DecidableEq, Repr

/-- Status derivation in `list_servers`
(src/routes/server_routes.py lines 87-98): note there is no `degraded`
branch here. -/
def listStatus (ready desired : Nat) : DisplayStatus :=
  if ready = desired ∧ ready > 0 then .running
  else if ready = 0 ∧ desired = 0 then .paused
  else if ready < desired then .starting
  else .unknown

/-- Status derivation in `get_server_status`
(src/routes/server_routes.py lines 158-168): same first three branches,
then `degraded` when `available_replicas < ready_replicas`. -/
def detailStatus (ready desired available : Nat) : DisplayStatus :=
  if ready = desired ∧ ready > 0 then .running
  else if ready = 0 ∧ desired = 0 then .paused
  else if ready < desired then .starting
  else if available < ready then .degraded
  else .unknown

/-! ### Cluster environment and KubernetesService
(src/services/kubernetes_service.py) -/

/-- Classes of exception raised by the embedded cluster operations. -/
inductive K8sError
  | initFailure
  | notFound
  | conflict
  | timeout
deriving DecidableEq, Repr

/-- The state of the cluster and of the single pod, as seen by one route
invocation.  Function-valued fields describe what the polling loops
observe at each attempt. -/
structure ClusterEnv where
  /-- `KubernetesService()` construction succeeds. -/
  k8sInitOk : Bool
  /-- message of the exception raised when construction fails. -/
  k8sInitMsg : String
  /-- a deployment named after the server already exists. -/
  deploymentExists : Bool
  /-- `read_namespaced_service(f"{server_id}-svc", ...)`: `none` when the
  service does not exist (`ApiException` 404), `some none` when it exists
  without a load-balancer ingress IP, `some (some ip)` when it has one. -/
  serviceState : Option (Option String)
  /-- `svc.spec.ports[0].port` of the existing service. -/
  svcPort : Nat
  /-- ingress IP observed at poll attempt `i` after service creation. -/
  ipAt : Nat → Option String
  /-- `list_namespaced_pod(label_selector=f"app={server_id}").items` is
  nonempty. -/
  podExists : Bool
  /-- the pod's `status.phase == "Running"` at readiness attempt `i`. -/
  podRunningAt : Nat → Bool
  /-- contents of `/data/<path>` in the pod (`none`: `cat` fails). -/
  podFiles : String → Option String
  /-- result of the pause-time `tar`/`base64` pipeline: the base64 text
  that ends up uploaded as the bulk archive, `none` when any step of the
  world-backup block fails. -/
  worldArchiveB64 : Option String

namespace KubernetesService

/-- `deploy_game_server` (src/services/kubernetes_service.py lines
86-119): `create_from_yaml` raises an already-exists `ApiException` when
a deployment of that name exists. -/
def deploy_game_server (env : ClusterEnv) : Except K8sError Unit :=
  if ¬ env.k8sInitOk then .error .initFailure
  else if env.deploymentExists then .error .conflict
  else .ok ()

/-- The IP-assignment polling loop in `create_game_service`
(src/services/kubernetes_service.py lines 210-219): up to `fuel`
attempts starting at attempt index `i`, returning the first assigned
ingress IP. -/
def ipPoll (env : ClusterEnv) : Nat → Nat → Option String
  | 0, _ => none
  | fuel + 1, i =>
    match env.ipAt i with
    | some ip => some ip
    | none => ipPoll env fuel (i + 1)

/-- `create_game_service` (src/services/kubernetes_service.py lines
121-228): reuse the existing service's IP when one is assigned; when the
service exists without an assigned IP the code falls through and
`create_namespaced_service` raises an already-exists conflict; when the
service does not exist, create it and poll 12 times for an IP, raising
`TimeoutError` when none is assigned. -/
def create_game_service (env : ClusterEnv) (port : Nat) :
    Except K8sError (String × Nat) :=
  if ¬ env.k8sInitOk then .error .initFailure
  else
    match env.serviceState with
    | some (some ip) => .ok (ip, port)
    | some none => .error .conflict
    | none =>
      match ipPoll env 12 0 with
      | some ip => .ok (ip, port)
      | none => .error .timeout

/-- `scale_deployment` (src/services/kubernetes_service.py lines
413-446): `read_namespaced_deployment` raises a not-found
`ApiException` when the deployment does not exist. -/
def scale_deployment (env : ClusterEnv) : Except K8sError Unit :=
  if ¬ env.k8sInitOk then .error .initFailure
  else if ¬ env.deploymentExists then .error .notFound
  else .ok ()

/-- `delete_deployment` (src/services/kubernetes_service.py lines
288-316): deletes the deployment, then the `-svc` service; either
delete raises not-found when the resource is absent. -/
def delete_deployment (env : ClusterEnv) : Except K8sError Unit :=
  if ¬ env.k8sInitOk then .error .initFailure
  else if ¬ env.deploymentExists then .error .notFound
  else if env.serviceState = none then .error .notFound
  else .ok ()

/-- `copy_files_from_pod` (src/services/kubernetes_service.py lines
318-411): returns `{}` when no pod matches the label selector; otherwise
one entry per requested path whose `kubectl exec cat` succeeds, in
request order. -/
def copy_files_from_pod (env : ClusterEnv) (paths : List String) :
    List (String × String) :=
  if ¬ env.podExists then []
  else paths.filterMap (fun p => (env.podFiles p).map (fun c => (p, c)))

/-- The readiness-wait loop in `resume_server`
(src/routes/server_routes.py lines 618-633): up to 12 attempts, breaking
as soon as a pod exists with phase `Running`; the final Boolean is only
logged. -/
def pollReady (env : ClusterEnv) : Bool :=
  (List.range 12).any (fun i => env.podExists && env.podRunningAt i)

end KubernetesService

/-! ### Error-to-status mapping (src/config/logging_config.py) -/

/-- `ErrorHandler.handle_kubernetes_error` status mapping
(src/config/logging_config.py lines 167-195): inspect the lowercased
message for keywords, default 500.  Used by the routes only for
`KubernetesService()` construction failures. -/
def kubeErrorStatus (msg : String) : Nat :=
  let m := msg.toLower
  if "not found".data <:+: m.data then 404
  else if "already exists".data <:+: m.data then 409
  else if "forbidden".data <:+: m.data then 403
  else if "unauthorized".data <:+: m.data then 401
  else 500

/-! ### Route embeddings (src/routes/server_routes.py) -/

/-- One game package from the `GAME_PACKAGES` table
(src/routes/server_routes.py lines 13-34). -/
structure GamePackage where
  cpu : Nat
  memory : Nat
  port : Nat
deriving DecidableEq, Repr

def GAME_PACKAGES (package : String) : Option GamePackage :=
  if package = "standard" then some ⟨4000, 8192, 25565⟩ else none

/-- Parsed JSON body of a start request: `none` fields are absent keys. -/
structure StartBody where
  package : Option String
  server_id : Option String
  nspace : Option String
deriving DecidableEq, Repr

/-- `StartServerSchema().load(data)` (src/utils/validators.py lines
34-55): `package` required and one of `['standard']`, `server_id`
required and validated by `ServerIdValidator`, `nspace` defaulting to
`"default"` and validated by `NamespaceValidator`.  `none` models the
raised `ValidationError`. -/
def validateStart (b : StartBody) : Option (String × String × String) :=
  match b.package, b.server_id with
  | some p, some s =>
    let ns := b.nspace.getD "default"
    if p = "standard" ∧ serverIdValid s ∧ namespaceValid ns then
      some (p, s, ns)
    else none
  | _, _ => none

/-- Parsed JSON body of a stop/pause/resume request: these routes read
`data.get("server_id")` (possibly `None`) and
`data.get("namespace", "default")` with no validation. -/
structure SimpleBody where
  server_id : Option String
  nspace : Option String
deriving DecidableEq, Repr

/-- The cluster, store and in-pod operations a route performs, in order.
Identifier-carrying events record the raw values the route passed. -/
inductive OpEvent
  | storeList (server_id : Option String)
  | storeUpdate (server_id : Option String) (path : String)
  | deployServer (server_id : String) (nspace : String)
  | createService (server_id : String) (nspace : String)
  | copyFiles (server_id : Option String) (nspace : String)
  | scale (server_id : Option String) (nspace : String) (replicas : Nat)
  | deleteDeployment (server_id : Option String) (nspace : String)
  | readService (name : String) (nspace : String)
  | worldGet
  | worldExtract
  | skipEntry (p : String)
  | fileWrite (p : String)
deriving DecidableEq, Repr

/-- The default files seeded for a new server
(src/routes/server_routes.py lines 305-311), in dict order. -/
def defaultFiles : List (String × String) :=
  [("server.properties",
    "server-name=My Minecraft Server\ndifficulty=normal\ngamemode=survival"),
   ("ops.json", "[]"),
   ("whitelist.json", "[]"),
   ("banned-players.json", "[]"),
   ("banned-ips.json", "[]")]

/-- The seeding loop of `start_server`
(src/routes/server_routes.py lines 312-313). -/
def seedDefaults (st : Store) (server_id : String) : Store :=
  defaultFiles.foldl
    (fun acc pc => B2StorageService.update_file acc server_id pc.1 (.text pc.2))
    st

inductive StartResult
  | badRequest
  | k8sInitError (status : Nat)
  | serverError (e : K8sError)
  | ok (files_restored : Bool) (existing_files : List String)
      (ip : String) (port : Nat)
deriving DecidableEq, Repr

/-- HTTP status of a start response: 400 for validation failures, the
`handle_kubernetes_error` mapping for client-construction failures,
hard-coded 500 for every exception reaching the outer handler
(src/routes/server_routes.py lines 346-348), 200 on success. -/
def StartResult.httpStatus : StartResult → Nat
  | .badRequest => 400
  | .k8sInitError s => s
  | .serverError _ => 500
  | .ok _ _ _ _ => 200

structure StartOutcome where
  response : StartResult
  store : Store
  seeded : List String
  trace : List OpEvent
deriving DecidableEq, Repr

/-- `start_server` (src/routes/server_routes.py lines 261-348). -/
def start_server (env : ClusterEnv) (st : Store) (body : Option StartBody) :
    StartOutcome :=
  match body with
  | none => ⟨.badRequest, st, [], []⟩
  | some b =>
    match validateStart b with
    | none => ⟨.badRequest, st, [], []⟩
    | some (pkg, server_id, nspace) =>
      -- unreachable default: validation guarantees pkg = "standard"
      let config := (GAME_PACKAGES pkg).getD ⟨0, 0, 0⟩
      if ¬ env.k8sInitOk then
        ⟨.k8sInitError (kubeErrorStatus env.k8sInitMsg), st, [], []⟩
      else
        let existing_files := B2StorageService.list_files st server_id
        let seeded :=
          if existing_files.isEmpty then defaultFiles.map (fun pc => pc.1) else []
        let st2 := if existing_files.isEmpty then seedDefaults st server_id else st
        let trace0 := OpEvent.storeList (some server_id) ::
          seeded.map (fun p => OpEvent.storeUpdate (some server_id) p)
        match KubernetesService.deploy_game_server env with
        | .error e =>
          ⟨.serverError e, st2, seeded, trace0 ++ [.deployServer server_id nspace]⟩
        | .ok _ =>
          let trace1 := trace0 ++
            [.deployServer server_id nspace, .createService server_id nspace]
          match KubernetesService.create_game_service env config.port with
          | .error e => ⟨.serverError e, st2, seeded, trace1⟩
          | .ok (ip, port) =>
            ⟨.ok (!existing_files.isEmpty) existing_files ip port, st2, seeded,
              trace1⟩

/-- The file list stop/pause back up
(src/routes/server_routes.py lines 363-369 and 415-421). -/
def filesToSave : List String :=
  ["server.properties", "ops.json", "whitelist.json",
   "banned-players.json", "banned-ips.json"]

inductive StopResult
  | ok (files_saved : List String)
  | failure (e : K8sError)
deriving DecidableEq, Repr

def StopResult.httpStatus : StopResult → Nat
  | .ok _ => 200
  | .failure _ => 500

structure StopOutcome where
  response : StopResult
  store : Store
  trace : List OpEvent
deriving DecidableEq, Repr

/-- `stop_server` (src/routes/server_routes.py lines 350-399): reads
`server_id`/`namespace` from the body unvalidated, backs up the config
files found in the pod, then deletes deployment and service. -/
def stop_server (env : ClusterEnv) (st : Store) (body : SimpleBody) :
    StopOutcome :=
  let server_id := body.server_id
  let nspace := body.nspace.getD "default"
  let sid := pyStr server_id
  if ¬ env.k8sInitOk then
    ⟨.failure .initFailure, st, [.copyFiles server_id nspace]⟩
  else
    let file_contents := KubernetesService.copy_files_from_pod env filesToSave
    let nonEmpty := file_contents.filter (fun pc => pc.2 ≠ "")
    let saved_files := nonEmpty.map (fun pc => pc.1)
    let st2 := nonEmpty.foldl
      (fun acc pc => B2StorageService.update_file acc sid pc.1 (.text pc.2)) st
    let trace := OpEvent.copyFiles server_id nspace ::
      saved_files.map (fun p => OpEvent.storeUpdate server_id p) ++
      [OpEvent.deleteDeployment server_id nspace]
    match KubernetesService.delete_deployment env with
    | .error e => ⟨.failure e, st2, trace⟩
    | .ok _ => ⟨.ok saved_files, st2, trace⟩

inductive PauseResult
  | ok (files_saved : List String)
  | failure (e : K8sError)
deriving DecidableEq, Repr

def PauseResult.httpStatus : PauseResult → Nat
  | .ok _ => 200
  | .failure _ => 500

structure PauseOutcome where
  response : PauseResult
  store : Store
  trace : List OpEvent
deriving DecidableEq, Repr

/-- `pause_server` (src/routes/server_routes.py lines 401-596): reads the
body unvalidated, backs up the config files found in the pod, runs the
world-backup block (whose failures are all caught at line 577), then
scales the deployment to 0.  `env.worldArchiveB64` is the base64 text the
`tar`/`base64` pipeline produces; the block needs a pod to exist. -/
def pause_server (env : ClusterEnv) (st : Store) (body : SimpleBody) :
    PauseOutcome :=
  let server_id := body.server_id
  let nspace := body.nspace.getD "default"
  let sid := pyStr server_id
  if ¬ env.k8sInitOk then
    ⟨.failure .initFailure, st, [.copyFiles server_id nspace]⟩
  else
    let file_contents := KubernetesService.copy_files_from_pod env filesToSave
    let nonEmpty := file_contents.filter (fun pc => pc.2 ≠ "")
    let savedCfg := nonEmpty.map (fun pc => pc.1)
    let st2 := nonEmpty.foldl
      (fun acc pc => B2StorageService.update_file acc sid pc.1 (.text pc.2)) st
    let worldSaved := if env.podExists then env.worldArchiveB64 else none
    let st3 := match worldSaved with
      | some b64 =>
        B2StorageService.update_file st2 sid "world.tar.gz.b64" (.text b64)
      | none => st2
    let saved_files := match worldSaved with
      | some _ => savedCfg ++ ["world.tar.gz.b64"]
      | none => savedCfg
    let trace := OpEvent.copyFiles server_id nspace ::
      saved_files.map (fun p => OpEvent.storeUpdate server_id p) ++
      [OpEvent.scale server_id nspace 0]
    match KubernetesService.scale_deployment env with
    | .error e => ⟨.failure e, st3, trace⟩
    | .ok _ => ⟨.ok saved_files, st3, trace⟩

/-- The reserved bulk-archive key
(src/routes/server_routes.py line 684). -/
def worldBackupFile : String := "world.tar.gz.b64"

/-- The call `b2_service.get_file(server_id, world_backup_file,
is_binary=True)` at src/routes/server_routes.py line 694.
`B2StorageService.get_file` is declared with parameters
`(self, server_id, file_path)` only (src/services/b2_storage_service.py
line 41), so in Python this call raises
`TypeError: get_file() got an unexpected keyword argument 'is_binary'`
before the store is consulted; `none` models that exception. -/
def getFileIsBinaryKwargCall (st : Store) (server_id file_path : String) :
    Option String :=
  none

/-- The world-restore block of `resume_server`
(src/routes/server_routes.py lines 688-783): download the archive, copy
it into the pod and extract it (`rm -rf /data/world && tar -xzf ...`);
any exception is caught at line 782.  Because the download call always
raises `TypeError` (see `getFileIsBinaryKwargCall`), the extraction
branch is dead code, modelled for completeness. -/
def worldRestoreBlock (st : Store) (server_id : String) :
    List OpEvent × List String :=
  match getFileIsBinaryKwargCall st server_id worldBackupFile with
  | none => ([.worldGet], [])
  | some _b64 => ([.worldGet, .worldExtract], [worldBackupFile])

/-- One iteration of the per-file restore loop
(src/routes/server_routes.py lines 786-843): skip directory entries and
the bulk-archive key; otherwise fetch the content (a per-file exception
is caught and the file merely omitted) and write it under `/data/`. -/
def configRestoreStep (st : Store) (server_id p : String) :
    List OpEvent × List String :=
  if pyEndswith p "/" ∨ p = worldBackupFile then ([.skipEntry p], [])
  else
    match B2StorageService.get_file st server_id p with
    | none => ([], [])
    | some _content => ([.fileWrite p], [p])

def configRestoreLoop (st : Store) (server_id : String) :
    List String → List OpEvent × List String
  | [] => ([], [])
  | p :: rest =>
    let step := configRestoreStep st server_id p
    let tail := configRestoreLoop st server_id rest
    (step.1 ++ tail.1, step.2 ++ tail.2)

/-- The restoration phase of `resume_server`
(src/routes/server_routes.py lines 641-843), entered when a pod exists:
list the store, run the world-restore block first when the bulk-archive
key is listed, then the per-file loop over the listed files in order.
Returns the events in order and the `restored_files` list. -/
def resumeRestore (st : Store) (server_id : String) :
    List OpEvent × List String :=
  let files_to_restore := B2StorageService.list_files st server_id
  let wpart := if worldBackupFile ∈ files_to_restore then
    worldRestoreBlock st server_id else ([], [])
  let cpart := configRestoreLoop st server_id files_to_restore
  (wpart.1 ++ cpart.1, wpart.2 ++ cpart.2)

inductive ResumeResult
  | ok (files_restored : List String) (ip : Option String) (port : Option Nat)
  | failure (e : K8sError)
deriving DecidableEq, Repr

/-- Every exception in `resume_server` reaches the handler at
src/routes/server_routes.py lines 889-891, which returns 500. -/
def ResumeResult.httpStatus : ResumeResult → Nat
  | .ok _ _ _ => 200
  | .failure _ => 500

/-- The `"status"` field of the resume response body (line 881). -/
def ResumeResult.statusField : ResumeResult → Option String
  | .ok _ _ _ => some "running"
  | .failure _ => none

structure ResumeOutcome where
  response : ResumeResult
  trace : List OpEvent
deriving DecidableEq, Repr

/-- `resume_server` (src/routes/server_routes.py lines 598-891): reads
the body unvalidated, scales the deployment to 1 (raising when it does
not exist), reads the `-svc` service (raising when absent), polls pod
readiness 12 times (result only logged — the route continues either
way), then runs the restoration phase only when a pod exists, and
finally reports the service's ingress IP and port. -/
def resume_server (env : ClusterEnv) (st : Store) (body : SimpleBody) :
    ResumeOutcome :=
  let server_id := body.server_id
  let nspace := body.nspace.getD "default"
  let sid := pyStr server_id
  if ¬ env.k8sInitOk then
    ⟨.failure .initFailure, [.scale server_id nspace 1]⟩
  else if ¬ env.deploymentExists then
    ⟨.failure .notFound, [.scale server_id nspace 1]⟩
  else
    match env.serviceState with
    | none =>
      ⟨.failure .notFound,
        [.scale server_id nspace 1, .readService (sid ++ "-svc") nspace]⟩
    | some ingressIp =>
      let _ready := KubernetesService.pollReady env
      let preTrace :=
        [OpEvent.scale server_id nspace 1,
         OpEvent.readService (sid ++ "-svc") nspace]
      if ¬ env.podExists then
        ⟨.ok [] ingressIp (ingressIp.map (fun _ => env.svcPort)), preTrace⟩
      else
        let restorePhase := resumeRestore st sid
        ⟨.ok restorePhase.2 ingressIp (ingressIp.map (fun _ => env.svcPort)),
          preTrace ++ OpEvent.storeList server_id :: restorePhase.1⟩

/-! ### Concrete fixtures used by counterexamples and witnesses -/

/-- A healthy cluster: client construction succeeds, the deployment and
its service (with ingress IP `1.2.3.4`, port 25565) exist, one pod is
running, each config file reads back as `"x"`, and the world-backup
pipeline produces the base64 text `"QUJD"`. -/
def baseEnv : ClusterEnv where
  k8sInitOk := true
  k8sInitMsg := ""
  deploymentExists := true
  serviceState := some (some "1.2.3.4")
  svcPort := 25565
  ipAt := fun _ => none
  podExists := true
  podRunningAt := fun _ => true
  podFiles := fun _ => some "x"
  worldArchiveB64 := some "QUJD"

def bodyGame1 : SimpleBody := ⟨some "game-1", none⟩

def startBodyGame1 : StartBody := ⟨some "standard", some "game-1", none⟩

/-- A store holding both the bulk-archive key and one config file for
server `"s"`. -/
def stBoth : Store :=
  [("s/world.tar.gz.b64", utf8Encode "QQ=="),
   ("s/server.properties", utf8Encode "a")]

/-- Pausing `game-1` against `baseEnv` starting from an empty store. -/
def pauseCycle : PauseOutcome := pause_server baseEnv [] bodyGame1

/-- Resuming `game-1` on the store the pause produced. -/
def resumeCycle : ResumeOutcome := resume_server baseEnv pauseCycle.store bodyGame1

def envNoDeployment : ClusterEnv := { baseEnv with deploymentExists := false }

def envSvcNoIp : ClusterEnv := { baseEnv with serviceState := some none }

def envNoPod : ClusterEnv :=
  { baseEnv with podExists := false, podRunningAt := fun _ => false }

def envPollIp : ClusterEnv :=
  { baseEnv with
    deploymentExists := false
    serviceState := none
    ipAt := fun i => if i = 3 then some "9.9.9.9" else none }

/-! ### Helper lemmas -/

theorem pyStartswith_append (a b : String) : pyStartswith (a ++ b) a = true := by
  simp [pyStartswith, String.data_append, List.isPrefixOf_iff_prefix]

theorem pyDropChars_append (a b : String) : pyDropChars (a ++ b) (pyLen a) = b := by
  unfold pyDropChars pyLen
  rw [String.data_append, List.drop_left]

theorem string_append_left_cancel {a p q : String} (h : a ++ p = a ++ q) :
    p = q := by
  have hd : (a ++ p).data = (a ++ q).data := by rw [h]
  rw [String.data_append, String.data_append] at hd
  have h2 := List.append_cancel_left hd
  exact congrArg String.mk h2

theorem storePut_fresh (st : Store) (key : String) (v : Bytes)
    (h : ∀ kv ∈ st, kv.1 ≠ key) : storePut st key v = st ++ [(key, v)] := by
  unfold storePut
  rw [if_neg]
  simp only [List.any_eq_true, decide_eq_true_eq, not_exists, not_and]
  intro kv hkv
  exact h kv hkv

theorem fresh_of_list_files_nil (st : Store) (sid p : String) (hp : p ≠ "")
    (h : B2StorageService.list_files st sid = []) :
    ∀ kv ∈ st, kv.1 ≠ sid ++ "/" ++ p := by
  intro kv hkv hkey
  have hmem : p ∈ B2StorageService.list_files st sid := by
    unfold B2StorageService.list_files
    apply List.mem_filterMap.mpr
    refine ⟨kv, List.mem_filter.mpr ⟨hkv, ?_⟩, ?_⟩
    · rw [hkey]
      exact pyStartswith_append (sid ++ "/") p
    · rw [hkey]
      simp [pyStartswith_append, pyDropChars_append, hp]
  rw [h] at hmem
  exact absurd hmem (List.not_mem_nil p)

theorem update_file_fresh (st : Store) (sid p : String) (c : Content)
    (h : ∀ kv ∈ st, kv.1 ≠ sid ++ "/" ++ p) :
    B2StorageService.update_file st sid p c =
      st ++ [(sid ++ "/" ++ p, B2StorageService.contentBytes c)] := by
  unfold B2StorageService.update_file
  exact storePut_fresh st (sid ++ "/" ++ p) _ h

theorem list_files_append_entry (st : Store) (sid p : String) (v : Bytes)
    (hp : p ≠ "") :
    B2StorageService.list_files (st ++ [(sid ++ "/" ++ p, v)]) sid =
      B2StorageService.list_files st sid ++ [p] := by
  simp only [B2StorageService.list_files]
  rw [List.filter_append, List.filterMap_append]
  congr 1
  simp [pyStartswith_append, pyDropChars_append, hp]

/-! ### C1 -/

/-- C1: the object-store round-trip claim fails for the binary flag.
`update_file` with `is_binary=True` stores the raw byte `0xFF` under
`"s/f"` and `list_files` lists it, but `get_file` — which accepts no
binary flag and always reads the downloaded object in text mode —
cannot return the stored bytes: the UTF-8 decode raises, modelled as
`none`. -/
theorem C1_binary_roundtrip_fails :
    B2StorageService.list_files
      (B2StorageService.update_file [] "s" "f" (Content.binary [255])) "s" =
        ["f"] ∧
    B2StorageService.get_file
      (B2StorageService.update_file [] "s" "f" (Content.binary [255])) "s" "f" =
        none := by
  decide

/-! ### C7 -/

/-- C7 counterexample: the claim's degraded rule (`ready < desired` with
previously-ready replicas gives `degraded`) is false at
`(ready, desired, available) = (2, 3, 2)`: both derivations yield
`starting`, and `list_servers` has no `degraded` output at all. -/
theorem C7_degraded_counterexample :
    detailStatus 2 3 2 = DisplayStatus.starting ∧
    listStatus 2 3 = DisplayStatus.starting ∧
    DisplayStatus.starting ≠ DisplayStatus.degraded := by
  decide

/-- C7 amended: `list_servers` derives `paused` iff both counts are zero,
`running` iff ready = desired > 0, `starting` iff ready < desired and
`unknown` iff ready > desired, never `degraded`; `get_server_status`
derives the same first three and yields `degraded` only when
ready > desired and available < ready (`unknown` when ready > desired
and available ≥ ready). -/
theorem C7_display_status_derivation (r d a : Nat) :
    (listStatus r d = DisplayStatus.running ↔ r = d ∧ 0 < r) ∧
    (listStatus r d = DisplayStatus.paused ↔ r = 0 ∧ d = 0) ∧
    (listStatus r d = DisplayStatus.starting ↔ r < d) ∧
    (listStatus r d = DisplayStatus.unknown ↔ d < r) ∧
    listStatus r d ≠ DisplayStatus.degraded ∧
    (detailStatus r d a = DisplayStatus.running ↔ r = d ∧ 0 < r) ∧
    (detailStatus r d a = DisplayStatus.paused ↔ r = 0 ∧ d = 0) ∧
    (detailStatus r d a = DisplayStatus.starting ↔ r < d) ∧
    (detailStatus r d a = DisplayStatus.degraded ↔ d < r ∧ a < r) ∧
    (detailStatus r d a = DisplayStatus.unknown ↔ d < r ∧ r ≤ a) := by
  unfold listStatus detailStatus
  split_ifs with h1 h2 h3 h4 <;> simp_all <;> omega

/-- C7 witness: the amended derivation evaluated at
`(ready, desired, available) = (1, 1, 1)`. -/
theorem C7_display_status_derivation_witness :
    listStatus 1 1 = DisplayStatus.running ↔ 1 = 1 ∧ 0 < 1 :=
  (C7_display_status_derivation 1 1 1).1

/-! ### C2 -/

theorem configRestoreStep_cases (st : Store) (sid p : String) :
    (configRestoreStep st sid p).1 = [OpEvent.skipEntry p] ∨
    (configRestoreStep st sid p).1 = [] ∨
    ((configRestoreStep st sid p).1 = [OpEvent.fileWrite p] ∧
      pyEndswith p "/" = false ∧ p ≠ worldBackupFile) := by
  unfold configRestoreStep
  split_ifs with h
  · left
    rfl
  · rcases hn : B2StorageService.get_file st sid p with _ | c
    · right
      left
      simp [hn]
    · right
      right
      push_neg at h
      refine ⟨by simp [hn], ?_, h.2⟩
      simpa using h.1

theorem configRestoreLoop_world_not_mem (st : Store) (sid : String)
    (files : List String) :
    OpEvent.worldGet ∉ (configRestoreLoop st sid files).1 ∧
    OpEvent.worldExtract ∉ (configRestoreLoop st sid files).1 := by
  induction files with
  | nil => simp [configRestoreLoop]
  | cons p rest ih =>
    simp only [configRestoreLoop, List.mem_append, not_or]
    rcases configRestoreStep_cases st sid p with hc | hc | ⟨hc, _, _⟩ <;>
      rw [hc] <;> simp_all

theorem configRestoreLoop_write_mem (st : Store) (sid : String)
    (files : List String) (p : String)
    (h : OpEvent.fileWrite p ∈ (configRestoreLoop st sid files).1) :
    p ∈ files ∧ pyEndswith p "/" = false ∧ p ≠ worldBackupFile := by
  induction files with
  | nil => simp [configRestoreLoop] at h
  | cons q rest ih =>
    simp only [configRestoreLoop, List.mem_append] at h
    rcases configRestoreStep_cases st sid q with hc | hc | ⟨hc, hq1, hq2⟩ <;>
      rw [hc] at h
    · rcases h with h | h
      · simp at h
      · have := ih h
        exact ⟨List.mem_cons_of_mem q this.1, this.2⟩
    · rcases h with h | h
      · simp at h
      · have := ih h
        exact ⟨List.mem_cons_of_mem q this.1, this.2⟩
    · rcases h with h | h
      · have hpq : p = q := by simpa using h
        subst hpq
        exact ⟨List.mem_cons_self p rest, hq1, hq2⟩
      · have := ih h
        exact ⟨List.mem_cons_of_mem q this.1, this.2⟩

/-- C2 counterexample: on a store holding both the bulk-archive key and
the config file `server.properties` for server `"s"`, the restoration
phase writes the config file but the archive extraction step never
occurs (the archive download at line 694 raises `TypeError` before it),
so no extraction precedes the write as the claim demands. -/
theorem C2_extraction_never_attempted :
    worldBackupFile ∈ B2StorageService.list_files stBoth "s" ∧
    OpEvent.fileWrite "server.properties" ∈ (resumeRestore stBoth "s").1 ∧
    OpEvent.worldExtract ∉ (resumeRestore stBoth "s").1 := by
  decide

/-- C2 amended: in every restoration phase whose store listing contains
the bulk-archive key, the world-restore block runs first — its download
attempt is the first event, though the extraction itself is never
reached because the download raises `TypeError` — and every individual
file write is for a listed path that neither ends in `'/'` nor equals
the bulk-archive key (placeholders and the archive key are skipped). -/
theorem C2_restore_order (st : Store) (server_id : String) :
    (worldBackupFile ∈ B2StorageService.list_files st server_id →
      (resumeRestore st server_id).1.head? = some OpEvent.worldGet) ∧
    OpEvent.worldExtract ∉ (resumeRestore st server_id).1 ∧
    (∀ p, OpEvent.fileWrite p ∈ (resumeRestore st server_id).1 →
      p ∈ B2StorageService.list_files st server_id ∧
      pyEndswith p "/" = false ∧ p ≠ worldBackupFile) := by
  refine ⟨?_, ?_, ?_⟩
  · intro h
    simp [resumeRestore, worldRestoreBlock, getFileIsBinaryKwargCall, h]
  · simp only [resumeRestore]
    split_ifs with h
    · simp only [worldRestoreBlock, getFileIsBinaryKwargCall, List.cons_append,
        List.nil_append, List.mem_cons, not_or]
      exact ⟨by simp,
        (configRestoreLoop_world_not_mem st server_id _).2⟩
    · simpa using (configRestoreLoop_world_not_mem st server_id _).2
  · intro p hp
    simp only [resumeRestore] at hp
    split_ifs at hp with h
    · simp only [worldRestoreBlock, getFileIsBinaryKwargCall, List.cons_append,
        List.nil_append, List.mem_cons] at hp
      rcases hp with hp | hp
      · simp at hp
      · exact configRestoreLoop_write_mem st server_id _ p hp
    · simp only [List.nil_append] at hp
      exact configRestoreLoop_write_mem st server_id _ p hp

/-- C2 witness: the amended ordering applied to the concrete two-entry
store `stBoth`. -/
theorem C2_restore_order_witness :
    (resumeRestore stBoth "s").1.head? = some OpEvent.worldGet ∧
    OpEvent.worldExtract ∉ (resumeRestore stBoth "s").1 :=
  ⟨(C2_restore_order stBoth "s").1 (by decide),
   (C2_restore_order stBoth "s").2.1⟩

/-! ### C3 -/

/-- C3: evaluation of a full pause/resume cycle for `game-1` against a
healthy cluster.  The pause saves N = 5 config files plus the bulk
archive (6 artifacts), but the resume reports only the 5 config files in
`files_restored` — the archive download raises `TypeError`
(`get_file` has no `is_binary` parameter), so the attempted world
restore fails and the extraction never happens — contradicting the
claimed N+1 reporting.  The returned `connection_info` does equal the
service's assigned endpoint `("1.2.3.4", 25565)`. -/
theorem C3_pause_resume_cycle_bug :
    pauseCycle.response = PauseResult.ok
      ["server.properties", "ops.json", "whitelist.json",
       "banned-players.json", "banned-ips.json", "world.tar.gz.b64"] ∧
    resumeCycle.response = ResumeResult.ok
      ["server.properties", "ops.json", "whitelist.json",
       "banned-players.json", "banned-ips.json"]
      (some "1.2.3.4") (some 25565) ∧
    OpEvent.worldGet ∈ resumeCycle.trace ∧
    OpEvent.worldExtract ∉ resumeCycle.trace := by
  decide

/-! ### C4 -/

/-- C4 counterexample: starting `game-1` while its workload already
exists yields HTTP 500, not the claimed 409 — the already-exists
conflict raised by the cluster create is caught by the route's generic
handler, which hard-codes 500. -/
theorem C4_conflict_returns_500 :
    (start_server baseEnv [] (some startBodyGame1)).response =
      StartResult.serverError K8sError.conflict ∧
    (start_server baseEnv [] (some startBodyGame1)).response.httpStatus = 500 ∧
    (start_server baseEnv [] (some startBodyGame1)).response.httpStatus ≠ 409 := by
  decide

/-- C4 amended: every validated start request against a cluster whose
deployment for the server already exists fails with the already-exists
conflict error, surfaced by `log_and_format_error` as HTTP 500. -/
theorem C4_start_existing_workload (env : ClusterEnv) (st : Store)
    (b : StartBody) (pkg sid ns : String)
    (hv : validateStart b = some (pkg, sid, ns))
    (hinit : env.k8sInitOk = true) (hex : env.deploymentExists = true) :
    (start_server env st (some b)).response =
      StartResult.serverError K8sError.conflict ∧
    (start_server env st (some b)).response.httpStatus = 500 := by
  simp [start_server, hv, hinit, hex, KubernetesService.deploy_game_server,
    StartResult.httpStatus]

/-- C4 witness: the amended statement at the concrete request
`startBodyGame1` against `baseEnv`. -/
theorem C4_start_existing_workload_witness :
    (start_server baseEnv [] (some startBodyGame1)).response =
      StartResult.serverError K8sError.conflict :=
  (C4_start_existing_workload baseEnv [] startBodyGame1 "standard" "game-1"
    "default" (by decide) rfl rfl).1

/-! ### C5 -/

/-- C5 counterexample: resuming a server whose deployment does not exist
returns HTTP 500, not the claimed 404 — the not-found `ApiException`
from `scale_deployment` is caught by the route's generic handler. -/
theorem C5_resume_missing_returns_500 :
    (resume_server envNoDeployment [] bodyGame1).response =
      ResumeResult.failure K8sError.notFound ∧
    (resume_server envNoDeployment [] bodyGame1).response.httpStatus = 500 ∧
    (resume_server envNoDeployment [] bodyGame1).response.httpStatus ≠ 404 := by
  decide

/-- C5 amended: every resume request naming a server with no existing
deployment fails with the underlying not-found error, surfaced as HTTP
500 by the route's generic exception handler. -/
theorem C5_resume_nonexistent (env : ClusterEnv) (st : Store)
    (body : SimpleBody) (hinit : env.k8sInitOk = true)
    (hex : env.deploymentExists = false) :
    (resume_server env st body).response =
      ResumeResult.failure K8sError.notFound ∧
    (resume_server env st body).response.httpStatus = 500 := by
  simp [resume_server, hinit, hex, ResumeResult.httpStatus]

/-- C5 witness: the amended statement at the concrete request
`bodyGame1` against `envNoDeployment`. -/
theorem C5_resume_nonexistent_witness :
    (resume_server envNoDeployment [] bodyGame1).response =
      ResumeResult.failure K8sError.notFound :=
  (C5_resume_nonexistent envNoDeployment [] bodyGame1 rfl rfl).1

/-! ### C10 -/

/-- C10: resume never fails from readiness-poll exhaustion — under a
healthy deployment and service, the response is HTTP 200 regardless of
the poll outcome, in particular when the 12-attempt poll expires
(`pollReady env = false`) the route still answers 200 with status
`"running"`; and when no pod exists after scaling up, the restoration
phase is skipped entirely and the response is 200 with an empty
`files_restored` list. -/
theorem C10_resume_continues (env : ClusterEnv) (st : Store)
    (body : SimpleBody) (x : Option String)
    (hinit : env.k8sInitOk = true) (hdep : env.deploymentExists = true)
    (hsvc : env.serviceState = some x) :
    (resume_server env st body).response.httpStatus = 200 ∧
    (KubernetesService.pollReady env = false →
      (resume_server env st body).response.httpStatus = 200 ∧
      (resume_server env st body).response.statusField = some "running") ∧
    (env.podExists = false →
      resume_server env st body =
        ⟨ResumeResult.ok [] x (x.map (fun _ => env.svcPort)),
         [OpEvent.scale body.server_id (body.nspace.getD "default") 1,
          OpEvent.readService (pyStr body.server_id ++ "-svc")
            (body.nspace.getD "default")]⟩) := by
  rcases hpod : env.podExists with _ | _ <;>
    refine ⟨?_, fun _ => ⟨?_, ?_⟩, fun hp => ?_⟩ <;>
      simp_all [resume_server, hinit, hdep, hsvc, ResumeResult.httpStatus,
        ResumeResult.statusField]

/-- C10 witness: against `envNoPod` (no pod after scale-up, readiness
poll exhausted) the resume returns 200, `"running"` and an empty
restored list. -/
theorem C10_resume_continues_witness :
    KubernetesService.pollReady envNoPod = false ∧
    (resume_server envNoPod [] bodyGame1).response.httpStatus = 200 ∧
    resume_server envNoPod [] bodyGame1 =
      ⟨ResumeResult.ok [] (some "1.2.3.4") (some 25565),
       [OpEvent.scale (some "game-1") "default" 1,
        OpEvent.readService "game-1-svc" "default"]⟩ :=
  ⟨by decide,
   (C10_resume_continues envNoPod [] bodyGame1 (some "1.2.3.4") rfl rfl rfl).1,
   (C10_resume_continues envNoPod [] bodyGame1 (some "1.2.3.4") rfl rfl rfl).2.2 rfl⟩

/-! ### C8 -/

theorem ipPoll_eq_none (env : ClusterEnv) :
    ∀ fuel i, (∀ j, j < fuel → env.ipAt (i + j) = none) →
      KubernetesService.ipPoll env fuel i = none := by
  intro fuel
  induction fuel with
  | zero => intro i _; rfl
  | succ n ih =>
    intro i h
    have h0 : env.ipAt i = none := by simpa using h 0 (Nat.succ_pos n)
    simp only [KubernetesService.ipPoll, h0]
    refine ih (i + 1) (fun j hj => ?_)
    have h1 := h (j + 1) (Nat.succ_lt_succ hj)
    have h2 : i + 1 + j = i + (j + 1) := by omega
    rw [h2]
    exact h1

theorem ipPoll_eq_some (env : ClusterEnv) :
    ∀ fuel i k ip, k < fuel → (∀ j, j < k → env.ipAt (i + j) = none) →
      env.ipAt (i + k) = some ip →
      KubernetesService.ipPoll env fuel i = some ip := by
  intro fuel
  induction fuel with
  | zero => intro i k ip hk _ _; exact absurd hk (Nat.not_lt_zero k)
  | succ n ih =>
    intro i k ip hk hbefore hsome
    cases k with
    | zero =>
      have h0 : env.ipAt i = some ip := by simpa using hsome
      simp [KubernetesService.ipPoll, h0]
    | succ m =>
      have h0 : env.ipAt i = none := by simpa using hbefore 0 (Nat.succ_pos m)
      simp only [KubernetesService.ipPoll, h0]
      refine ih (i + 1) m ip (Nat.lt_of_succ_lt_succ hk) (fun j hj => ?_) ?_
      · have h1 := hbefore (j + 1) (Nat.succ_lt_succ hj)
        have h2 : i + 1 + j = i + (j + 1) := by omega
        rw [h2]
        exact h1
      · have h2 : i + 1 + m = i + (m + 1) := by omega
        rw [h2]
        exact hsome

/-- C8 counterexample: when the conventionally named service already
exists but has no assigned address, `create_game_service` does not poll
and raises no `TimeoutError`; re-creating the service fails with an
already-exists conflict instead. -/
theorem C8_existing_unassigned_conflict :
    KubernetesService.create_game_service envSvcNoIp 25565 =
      Except.error K8sError.conflict ∧
    K8sError.conflict ≠ K8sError.timeout :=
  ⟨rfl, by decide⟩

/-- C8 amended: if the service exists with an assigned address, that
address and the requested port are returned without provisioning; if
the service does not exist, a new one is created and polled up to 12
times, returning the first assigned address and raising `TimeoutError`
when none is assigned within the bound; but if the service exists
without an address, the code attempts to create it again and fails with
an already-exists conflict. -/
theorem C8_endpoint_provisioning (env : ClusterEnv) (port : Nat)
    (hinit : env.k8sInitOk = true) :
    (∀ ip, env.serviceState = some (some ip) →
      KubernetesService.create_game_service env port = Except.ok (ip, port)) ∧
    (env.serviceState = some none →
      KubernetesService.create_game_service env port =
        Except.error K8sError.conflict) ∧
    (env.serviceState = none → (∀ i, i < 12 → env.ipAt i = none) →
      KubernetesService.create_game_service env port =
        Except.error K8sError.timeout) ∧
    (env.serviceState = none → ∀ k ip, k < 12 →
      (∀ j, j < k → env.ipAt j = none) → env.ipAt k = some ip →
      KubernetesService.create_game_service env port = Except.ok (ip, port)) := by
  refine ⟨fun ip h => ?_, fun h => ?_, fun h hnone => ?_,
    fun h k ip hk hbefore hsome => ?_⟩
  · simp [KubernetesService.create_game_service, hinit, h]
  · simp [KubernetesService.create_game_service, hinit, h]
  · have hp := ipPoll_eq_none env 12 0 (fun j hj => by simpa using hnone j hj)
    simp [KubernetesService.create_game_service, hinit, h, hp]
  · have hp := ipPoll_eq_some env 12 0 k ip hk
      (fun j hj => by simpa using hbefore j hj) (by simpa using hsome)
    simp [KubernetesService.create_game_service, hinit, h, hp]

/-- C8 witness: against `envPollIp` (no existing service, address
assigned at poll attempt 3) the endpoint call returns the polled
address. -/
theorem C8_endpoint_provisioning_witness :
    KubernetesService.create_game_service envPollIp 25565 =
      Except.ok ("9.9.9.9", 25565) :=
  (C8_endpoint_provisioning envPollIp 25565 rfl).2.2.2 rfl 3 "9.9.9.9"
    (by decide) (by decide) rfl

/-! ### C9 -/

/-- C9: stop, pause and resume perform no identifier validation — for
every request body, including an absent or arbitrary `server_id`, the
raw value is passed to the first cluster operation (`copy_files_from_pod`
for stop and pause, `scale_deployment` for resume); whereas start
rejects any invalid `server_id` with a 400 response before touching the
store or cluster. -/
theorem C9_no_input_validation (env : ClusterEnv) (st : Store)
    (sid nso : Option String) :
    (stop_server env st ⟨sid, nso⟩).trace.head? =
      some (OpEvent.copyFiles sid (nso.getD "default")) ∧
    (pause_server env st ⟨sid, nso⟩).trace.head? =
      some (OpEvent.copyFiles sid (nso.getD "default")) ∧
    (resume_server env st ⟨sid, nso⟩).trace.head? =
      some (OpEvent.scale sid (nso.getD "default") 1) ∧
    (∀ (p : Option String) (s : String) (n : Option String),
      serverIdValid s = false →
      start_server env st (some ⟨p, some s, n⟩) =
        ⟨StartResult.badRequest, st, [], []⟩) := by
  refine ⟨?_, ?_, ?_, ?_⟩
  · simp only [stop_server]
    split_ifs
    all_goals try (simp; done)
    all_goals cases KubernetesService.delete_deployment env <;> simp
  · simp only [pause_server]
    split_ifs
    all_goals try (simp; done)
    all_goals cases KubernetesService.scale_deployment env <;>
      cases env.worldArchiveB64 <;> simp
  · simp only [resume_server]
    rcases env.serviceState with _ | x <;> split_ifs <;> simp
  · intro p s n h
    cases p with
    | none => simp [start_server, validateStart]
    | some p => simp [start_server, validateStart, h]

/-- C9 witness: the invalid identifier `"Game_1"` (uppercase) flows
unchecked into stop's first cluster call, while start rejects it. -/
theorem C9_no_input_validation_witness :
    (stop_server baseEnv [] ⟨some "Game_1", none⟩).trace.head? =
      some (OpEvent.copyFiles (some "Game_1") "default") ∧
    start_server baseEnv []
        (some ⟨some "standard", some "Game_1", none⟩) =
      ⟨StartResult.badRequest, [], [], []⟩ :=
  ⟨(C9_no_input_validation baseEnv [] (some "Game_1") none).1,
   (C9_no_input_validation baseEnv [] (some "Game_1") none).2.2.2
     (some "standard") "Game_1" none (by decide)⟩

/-! ### C6 -/

theorem validateStart_package_eq (b : StartBody) (pkg sid ns : String)
    (h : validateStart b = some (pkg, sid, ns)) : pkg = "standard" := by
  unfold validateStart at h
  rcases hb : b.package with _ | p <;> rw [hb] at h
  · simp at h
  · rcases hs : b.server_id with _ | s <;> rw [hs] at h
    · simp at h
    · dsimp only at h
      split_ifs at h with hc
      have h' := Option.some.inj h
      have hp : p = pkg := congrArg Prod.fst h'
      rw [← hp]
      exact hc.1

theorem fold_update_list_files (sid : String) :
    ∀ (L : List (String × String)) (st : Store),
      (∀ pc ∈ L, pc.1 ≠ "") →
      (∀ pc ∈ L, ∀ kv ∈ st, kv.1 ≠ sid ++ "/" ++ pc.1) →
      L.Pairwise (fun x y => x.1 ≠ y.1) →
      B2StorageService.list_files
        (L.foldl (fun acc pc =>
          B2StorageService.update_file acc sid pc.1 (Content.text pc.2)) st)
        sid =
        B2StorageService.list_files st sid ++ L.map Prod.fst := by
  intro L
  induction L with
  | nil =>
    intro st _ _ _
    simp
  | cons hd tl ih =>
    intro st hne hfresh hpw
    simp only [List.foldl_cons]
    rw [update_file_fresh st sid hd.1 _ (hfresh hd (List.mem_cons_self hd tl))]
    rw [ih (st ++ [(sid ++ "/" ++ hd.1, B2StorageService.contentBytes (Content.text hd.2))])
      (fun pc hpc => hne pc (List.mem_cons_of_mem _ hpc)) ?_
      ((List.pairwise_cons.mp hpw).2)]
    · rw [list_files_append_entry st sid hd.1 _
        (hne hd (List.mem_cons_self hd tl))]
      simp
    · intro pc hpc kv hkv
      rcases List.mem_append.mp hkv with hkv | hkv
      · exact hfresh pc (List.mem_cons_of_mem _ hpc) kv hkv
      · have hkv1 : kv = (sid ++ "/" ++ hd.1,
            B2StorageService.contentBytes (Content.text hd.2)) := by
          simpa using hkv
        rw [hkv1]
        intro hcontra
        have := string_append_left_cancel hcontra
        exact (List.pairwise_cons.mp hpw).1 pc hpc this

theorem seedDefaults_list_files (st : Store) (sid : String)
    (h : B2StorageService.list_files st sid = []) :
    B2StorageService.list_files (seedDefaults st sid) sid =
      defaultFiles.map Prod.fst := by
  have hne : ∀ pc ∈ defaultFiles, pc.1 ≠ "" := by decide
  unfold seedDefaults
  rw [fold_update_list_files sid defaultFiles st hne
    (fun pc hpc kv hkv =>
      fresh_of_list_files_nil st sid pc.1 (hne pc hpc) h kv hkv)
    (by decide)]
  rw [h]
  simp

/-- C6: new-server seeding.  For every validated start against a healthy
cluster (deployment absent, endpoint call returning `(ip, port)`): when
the store lists zero artifacts for the server, the route writes exactly
the 5 default config artifacts `server.properties, ops.json,
whitelist.json, banned-players.json, banned-ips.json` (the seeded list
and the resulting store listing are exactly those names) and responds
with `files_restored = false`; when the store already lists artifacts,
nothing is written (the store is unchanged) and
`files_restored = true`. -/
theorem C6_new_server_seeding (env : ClusterEnv) (st : Store) (b : StartBody)
    (pkg sid ns ip : String) (port : Nat)
    (hv : validateStart b = some (pkg, sid, ns))
    (hinit : env.k8sInitOk = true)
    (hdep : env.deploymentExists = false)
    (hsvc : KubernetesService.create_game_service env 25565 =
      Except.ok (ip, port)) :
    (B2StorageService.list_files st sid = [] →
      (start_server env st (some b)).response =
        StartResult.ok false [] ip port ∧
      (start_server env st (some b)).seeded = defaultFiles.map Prod.fst ∧
      B2StorageService.list_files (start_server env st (some b)).store sid =
        defaultFiles.map Prod.fst) ∧
    (B2StorageService.list_files st sid ≠ [] →
      (start_server env st (some b)).response =
        StartResult.ok true (B2StorageService.list_files st sid) ip port ∧
      (start_server env st (some b)).seeded = [] ∧
      (start_server env st (some b)).store = st) := by
  have hpkg := validateStart_package_eq b pkg sid ns hv
  subst hpkg
  have hout : start_server env st (some b) =
      ⟨StartResult.ok (!(B2StorageService.list_files st sid).isEmpty)
        (B2StorageService.list_files st sid) ip port,
       if (B2StorageService.list_files st sid).isEmpty then
         seedDefaults st sid else st,
       if (B2StorageService.list_files st sid).isEmpty then
         defaultFiles.map Prod.fst else [],
       OpEvent.storeList (some sid) ::
         (if (B2StorageService.list_files st sid).isEmpty then
           defaultFiles.map Prod.fst else []).map
           (fun p => OpEvent.storeUpdate (some sid) p) ++
         [OpEvent.deployServer sid ns, OpEvent.createService sid ns]⟩ := by
    simp [start_server, hv, hinit, hdep, hsvc, GAME_PACKAGES,
      KubernetesService.deploy_game_server]
  constructor
  · intro h0
    rw [hout]
    refine ⟨?_, ?_, ?_⟩ <;> simp [h0, seedDefaults_list_files st sid h0]
  · intro h1
    rw [hout]
    have h2 : (B2StorageService.list_files st sid).isEmpty = false := by
      rcases hl : B2StorageService.list_files st sid with _ | _
      · exact absurd hl h1
      · rfl
    simp [h2]

/-- C6 witness: starting `game-1` against an empty store and a healthy
cluster seeds exactly the 5 defaults with `files_restored = false`. -/
theorem C6_new_server_seeding_witness :
    (start_server envNoDeployment [] (some startBodyGame1)).response =
      StartResult.ok false [] "1.2.3.4" 25565 ∧
    (start_server envNoDeployment [] (some startBodyGame1)).seeded =
      defaultFiles.map Prod.fst :=
  ⟨((C6_new_server_seeding envNoDeployment [] startBodyGame1 "standard"
      "game-1" "default" "1.2.3.4" 25565 (by decide) rfl rfl rfl).1
      (by decide)).1,
   ((C6_new_server_seeding envNoDeployment [] startBodyGame1 "standard"
      "game-1" "default" "1.2.3.4" 25565 (by decide) rfl rfl rfl).1
      (by decide)).2.1⟩

end GameServer
